import Mathlib

/-!
Shallow embedding of `src/src/prover.rs` from snarkify-scroll-proving-agent.

The file under verification is an HTTP adapter exposing three operations
(`get_vk`, `prove`, `query_task`) over a remote proving service.  The
network exchange itself (reqwest, serde_json, chrono) is external to the
repository; we embed it by passing the *outcomes* of the external steps as
explicit parameters:

  * `url`    : the outcome of `build_url` / `Url::parse` (external parser),
  * `encode` : the outcome of `serde_json::to_string` on the POST body,
  * `send`   : the outcome of `client.get(..).send()` / `.text()` — either a
               transport error or an HTTP status together with the body text,
  * `decode` : the outcome of `serde_json::from_str` on a body text.

All control flow, field mapping, status checking, timestamp arithmetic and
error-message construction — the code that actually lives in `prover.rs` —
is translated directly.  Rust `f64` values are modelled as `Rat`: every
float produced by this code is an integer number of seconds (`i64 as f64`),
far below 2^53, so arithmetic on them is exact and the rational model is
faithful.
-/

/-- Modelled from the spec: `CircuitType` lives in the external
`scroll_proving_sdk` crate (not under `src/`).  The spec (§3, §8) names the
`Undefined` sentinel and `Halo2`; only pass-through and the sentinel matter
to the claims. `to_u8` is its numeric encoding used in the `get_vk` path. -/
inductive CircuitType where
  | Undefined
  | Halo2
deriving DecidableEq, Repr

def CircuitType.to_u8 : CircuitType → Nat
  | .Undefined => 0
  | .Halo2 => 1

/-- Modelled from the spec: `TaskStatus` from the external
`scroll_proving_sdk` crate; the spec (§3) gives the vocabulary
Queued, Proving, Success, Failed. -/
inductive TaskStatus where
  | Queued
  | Proving
  | Success
  | Failed
deriving DecidableEq, Repr

/-- Modelled from the spec: the remote task-state vocabulary (field `state`
of the task response declared in the missing `crate::types`); per spec §3/§4.5
it is mapped 1:1 onto the local `TaskStatus` enumeration by `.into()`. -/
inductive RemoteState where
  | queued
  | proving
  | success
  | failed
deriving DecidableEq, Repr

/-- The 1:1 pass-through mapping `resp.state.into()` (spec §4.5). -/
def RemoteState.into : RemoteState → TaskStatus
  | .queued => TaskStatus.Queued
  | .proving => TaskStatus.Proving
  | .success => TaskStatus.Success
  | .failed => TaskStatus.Failed

/-- Model of a `chrono::DateTime`: whole seconds since the epoch plus a
sub-second part.  `nanos` is carried so that discarding sub-second
precision is observable. -/
structure DateTime where
  secs : Int
  nanos : Nat
deriving DecidableEq, Repr

/-- Model of chrono's `DateTime::timestamp()`: the whole-second part only;
the nanosecond part is discarded (chrono documents truncation). -/
def DateTime.timestamp (t : DateTime) : Int := t.secs

/-- `t.timestamp() as f64`, exact for these magnitudes. -/
def DateTime.timestampF (t : DateTime) : Rat := (t.timestamp : Rat)

/- Request/response shapes of the `scroll_proving_sdk` contract (external
to `src/`, shapes fixed by how `prover.rs` constructs and reads them). -/

structure GetVkRequest where
  circuit_type : CircuitType
  circuit_version : String
deriving DecidableEq, Repr

structure GetVkResponse where
  vk : String
  error : Option String
deriving DecidableEq, Repr

structure ProveRequest where
  circuit_type : CircuitType
  circuit_version : String
  hard_fork_name : String
  input : String
deriving DecidableEq, Repr

structure ProveResponse where
  task_id : String
  circuit_type : CircuitType
  circuit_version : String
  hard_fork_name : String
  status : TaskStatus
  created_at : Rat
  started_at : Option Rat
  finished_at : Option Rat
  compute_time_sec : Option Rat
  input : Option String
  proof : Option String
  vk : Option String
  error : Option String
deriving DecidableEq, Repr

structure QueryTaskRequest where
  task_id : String
deriving DecidableEq, Repr

structure QueryTaskResponse where
  task_id : String
  circuit_type : CircuitType
  circuit_version : String
  hard_fork_name : String
  status : TaskStatus
  created_at : Rat
  started_at : Option Rat
  finished_at : Option Rat
  compute_time_sec : Option Rat
  input : Option String
  proof : Option String
  vk : Option String
  error : Option String
deriving DecidableEq, Repr

/- Remote JSON shapes from the missing `crate::types` module, with exactly
the fields `prover.rs` reads (spec §6 table). -/

structure SnarkifyGetVkResponse where
  vk : String
deriving DecidableEq, Repr

structure SnarkifyCreateTaskInput where
  circuit_type : CircuitType
  circuit_version : String
  hard_fork_name : String
  task_data : String
deriving DecidableEq, Repr

structure SnarkifyGetTaskResponse where
  task_id : String
  state : RemoteState
  input : String
  created : Option DateTime
  started : Option DateTime
  finished : Option DateTime
  proof : Option String
  error : Option String
deriving DecidableEq, Repr

/-- API version used by the Snarkify platform. -/
def API_VERSION : String := "v1"

/-- The prover's immutable configuration (the transport client itself is
external; its behaviour enters through the outcome parameters). -/
structure SnarkifyProver where
  base_url : String
  api_key : String
  service_id : String
deriving DecidableEq, Repr

/-- Outcome of the raw network exchange: `send()` (or the later `.text()`)
failed with a transport error, or an HTTP response arrived with a status
code and a body text. -/
inductive NetOutcome where
  | err (msg : String)
  | ok (status : Nat) (body : String)
deriving DecidableEq, Repr

/-- The status-check failure message of `get_with_token`/`post_with_token`:
`"[Snarkify Client], {method}, status not ok: {status}"`. -/
def status_not_ok_msg (method : String) (status : Nat) : String :=
  "[Snarkify Client], " ++ method ++ ", status not ok: " ++ toString status

/-- Embedding of `SnarkifyProver::get_with_token`: propagate a URL-build
failure, propagate a transport failure, reject any HTTP status outside the
inclusive range [200, 202] with a message naming the path and the status,
otherwise hand the body to the deserializer and return its outcome. -/
def get_with_token {α : Type} (method : String) (url : Except String Unit)
    (send : NetOutcome) (decode : String → Except String α) : Except String α :=
  match url with
  | .error m => .error m
  | .ok _ =>
    match send with
    | .err m => .error m
    | .ok status body =>
      if ¬ (200 ≤ status ∧ status ≤ 202) then
        .error (status_not_ok_msg method status)
      else
        decode body

/-- Embedding of `SnarkifyProver::post_with_token`: same as
`get_with_token` with one extra fallible step, serializing the request body
(`serde_json::to_string`), placed between the URL build and the send as in
the source. -/
def post_with_token {α : Type} (method : String) (url : Except String Unit)
    (encode : Except String String) (send : NetOutcome)
    (decode : String → Except String α) : Except String α :=
  match url with
  | .error m => .error m
  | .ok _ =>
    match encode with
    | .error m => .error m
    | .ok _ =>
      match send with
      | .err m => .error m
      | .ok status body =>
        if ¬ (200 ≤ status ∧ status ≤ 202) then
          .error (status_not_ok_msg method status)
        else
          decode body

/-- Request path of `get_vk`. -/
def get_vk_method (req : GetVkRequest) : String :=
  "/" ++ API_VERSION ++ "/scroll/sdk/vks/versions/" ++ req.circuit_version
    ++ "/types/" ++ toString req.circuit_type.to_u8

/-- Request path of `prove`. -/
def prove_method (self : SnarkifyProver) : String :=
  "/" ++ API_VERSION ++ "/services/" ++ self.service_id

/-- Request path of `query_task`. -/
def query_task_method (req : QueryTaskRequest) : String :=
  "/" ++ API_VERSION ++ "/tasks/" ++ req.task_id

/-- Embedding of `SnarkifyProver::build_prove_error_response`. -/
def SnarkifyProver.build_prove_error_response (_self : SnarkifyProver)
    (req : ProveRequest) (error_msg : String) : ProveResponse :=
  { task_id := ""
    circuit_type := req.circuit_type
    circuit_version := req.circuit_version
    hard_fork_name := req.hard_fork_name
    status := TaskStatus.Failed
    created_at := 0
    started_at := none
    finished_at := none
    compute_time_sec := none
    input := some req.input
    proof := none
    vk := none
    error := some error_msg }

/-- Embedding of `SnarkifyProver::build_query_task_error_response`. -/
def SnarkifyProver.build_query_task_error_response (_self : SnarkifyProver)
    (req : QueryTaskRequest) (error_msg : String) : QueryTaskResponse :=
  { task_id := req.task_id
    circuit_type := CircuitType.Undefined
    circuit_version := ""
    hard_fork_name := ""
    status := TaskStatus.Queued
    created_at := 0
    started_at := none
    finished_at := none
    compute_time_sec := none
    input := none
    proof := none
    vk := none
    error := some error_msg }

/-- Embedding of `ProvingService::get_vk` for `SnarkifyProver`. -/
def SnarkifyProver.get_vk (_self : SnarkifyProver) (req : GetVkRequest)
    (url : Except String Unit) (send : NetOutcome)
    (decode : String → Except String SnarkifyGetVkResponse) : GetVkResponse :=
  match get_with_token (get_vk_method req) url send decode with
  | .ok resp => { vk := resp.vk, error := none }
  | .error e => { vk := "", error := some ("Failed to get vk: " ++ e) }

/-- Embedding of `ProvingService::prove` for `SnarkifyProver`. -/
def SnarkifyProver.prove (self : SnarkifyProver) (req : ProveRequest)
    (url : Except String Unit) (encode : Except String String)
    (send : NetOutcome)
    (decode : String → Except String SnarkifyGetTaskResponse) : ProveResponse :=
  match post_with_token (prove_method self) url encode send decode with
  | .ok resp =>
    { task_id := resp.task_id
      circuit_type := req.circuit_type
      circuit_version := req.circuit_version
      hard_fork_name := req.hard_fork_name
      status := resp.state.into
      created_at := (resp.created.map (fun t => t.timestampF)).getD 0
      started_at := resp.started.map (fun t => t.timestampF)
      finished_at := none
      compute_time_sec := none
      input := some req.input
      proof := none
      vk := none
      error := none }
  | .error e =>
    self.build_prove_error_response req ("Failed to request proof: " ++ e)

/-- Embedding of `ProvingService::query_task` for `SnarkifyProver`.
`decode_input` is the outcome of `serde_json::from_str` on the embedded
`input` string of the decoded task response. -/
def SnarkifyProver.query_task (self : SnarkifyProver) (req : QueryTaskRequest)
    (url : Except String Unit) (send : NetOutcome)
    (decode : String → Except String SnarkifyGetTaskResponse)
    (decode_input : String → Except String SnarkifyCreateTaskInput) :
    QueryTaskResponse :=
  match get_with_token (query_task_method req) url send decode with
  | .ok resp =>
    match decode_input resp.input with
    | .error e =>
      self.build_query_task_error_response req ("Failed to parse task input: " ++ e)
    | .ok task_input =>
      let started_at := resp.started.map (fun t => t.timestampF)
      let finished_at := resp.finished.map (fun t => t.timestampF)
      let compute_time_sec :=
        match started_at, finished_at with
        | some started, some finished => some (finished - started)
        | _, _ => none
      { task_id := resp.task_id
        circuit_type := task_input.circuit_type
        circuit_version := task_input.circuit_version
        hard_fork_name := task_input.hard_fork_name
        status := resp.state.into
        created_at := (resp.created.map (fun t => t.timestampF)).getD 0
        started_at := started_at
        finished_at := finished_at
        compute_time_sec := compute_time_sec
        input := some task_input.task_data
        proof := resp.proof
        vk := none
        error := resp.error }
  | .error e =>
    self.build_query_task_error_response req ("Failed to query proof: " ++ e)

/- Sample concrete values used by the witness theorems. -/

/-- Sample prover configuration. -/
def sampleProver : SnarkifyProver :=
  { base_url := "http://localhost", api_key := "k", service_id := "svc" }

/-- Sample get_vk request. -/
def sampleVkReq : GetVkRequest :=
  { circuit_type := CircuitType.Halo2, circuit_version := "v1.2" }

/-- Sample prove request. -/
def sampleProveReq : ProveRequest :=
  { circuit_type := CircuitType.Halo2, circuit_version := "v1.2",
    hard_fork_name := "bernoulli", input := "0xdead" }

/-- Sample query_task request. -/
def sampleQueryReq : QueryTaskRequest := { task_id := "abc123" }

/-- Sample remote task response whose embedded input is not decodable. -/
def sampleTaskResp : SnarkifyGetTaskResponse :=
  { task_id := "abc123", state := RemoteState.queued, input := "not json",
    created := none, started := none, finished := none,
    proof := none, error := none }

/-- Sample remote task response for a finished task carrying both a proof
and an error message. -/
def sampleDoneResp : SnarkifyGetTaskResponse :=
  { task_id := "abc123", state := RemoteState.success, input := "ok json",
    created := some { secs := 100, nanos := 250000000 },
    started := some { secs := 110, nanos := 0 },
    finished := some { secs := 173, nanos := 999999999 },
    proof := some "proofbytes", error := some "remote warning" }

/-- Sample decoded embedded task input. -/
def sampleTaskInput : SnarkifyCreateTaskInput :=
  { circuit_type := CircuitType.Halo2, circuit_version := "v1.2",
    hard_fork_name := "bernoulli", task_data := "0xdead" }

/-- Sample vk decoder that always fails. -/
def failVkDecode : String → Except String SnarkifyGetVkResponse :=
  fun _ => Except.error "bad body"

/-- Sample vk decoder that always succeeds. -/
def okVkDecode : String → Except String SnarkifyGetVkResponse :=
  fun _ => Except.ok { vk := "vkbytes" }

/-- Sample task decoder that always fails. -/
def failTaskDecode : String → Except String SnarkifyGetTaskResponse :=
  fun _ => Except.error "bad body"

/-- Sample task decoder returning `sampleTaskResp`. -/
def okTaskDecode : String → Except String SnarkifyGetTaskResponse :=
  fun _ => Except.ok sampleTaskResp

/-- Sample task decoder returning `sampleDoneResp`. -/
def okDoneDecode : String → Except String SnarkifyGetTaskResponse :=
  fun _ => Except.ok sampleDoneResp

/-- Sample embedded-input decoder that fails on `"not json"` and decodes
anything else to `sampleTaskInput`. -/
def sampleInputDecode : String → Except String SnarkifyCreateTaskInput :=
  fun s => if s = "not json" then Except.error "expected value" else Except.ok sampleTaskInput

/-- C7: for every GET or POST exchange, an HTTP status is accepted (the body
is handed to the deserializer) if and only if it lies in the inclusive range
[200, 202]; any other status fails the call immediately with the message
embedding the request path and the observed status code. -/
theorem C7_status_gate (method : String) (status : Nat) (body reqBody : String)
    (gdec : String → Except String SnarkifyGetVkResponse)
    (pdec : String → Except String SnarkifyGetTaskResponse) :
    ((200 ≤ status ∧ status ≤ 202) →
      get_with_token method (Except.ok ()) (NetOutcome.ok status body) gdec = gdec body
      ∧ post_with_token method (Except.ok ()) (Except.ok reqBody)
          (NetOutcome.ok status body) pdec = pdec body)
    ∧ (¬ (200 ≤ status ∧ status ≤ 202) →
      get_with_token method (Except.ok ()) (NetOutcome.ok status body) gdec =
        Except.error (status_not_ok_msg method status)
      ∧ post_with_token method (Except.ok ()) (Except.ok reqBody)
          (NetOutcome.ok status body) pdec =
        Except.error (status_not_ok_msg method status)) := by
  constructor
  · intro h
    constructor <;> simp [get_with_token, post_with_token, h]
  · intro h
    constructor <;> simp [get_with_token, post_with_token, h]

/-- C2: for every response returned by prove or query_task,
compute_time_sec is exactly the match of the response's own started_at and
finished_at: present iff both are present, and then equal to
finished_at - started_at with no rounding. -/
theorem C2_compute_time (self : SnarkifyProver) (preq : ProveRequest)
    (purl : Except String Unit) (enc : Except String String) (psend : NetOutcome)
    (pdec : String → Except String SnarkifyGetTaskResponse)
    (qreq : QueryTaskRequest) (qurl : Except String Unit) (qsend : NetOutcome)
    (qdec : String → Except String SnarkifyGetTaskResponse)
    (qidec : String → Except String SnarkifyCreateTaskInput) :
    ((self.prove preq purl enc psend pdec).compute_time_sec =
      match (self.prove preq purl enc psend pdec).started_at,
            (self.prove preq purl enc psend pdec).finished_at with
      | some s, some f => some (f - s)
      | _, _ => none)
    ∧ ((self.query_task qreq qurl qsend qdec qidec).compute_time_sec =
      match (self.query_task qreq qurl qsend qdec qidec).started_at,
            (self.query_task qreq qurl qsend qdec qidec).finished_at with
      | some s, some f => some (f - s)
      | _, _ => none) := by
  constructor
  · cases h : post_with_token (prove_method self) purl enc psend pdec with
    | ok resp =>
      cases hs : resp.started <;>
        simp [SnarkifyProver.prove, h, hs]
    | error e =>
      simp [SnarkifyProver.prove, h, SnarkifyProver.build_prove_error_response]
  · cases h : get_with_token (query_task_method qreq) qurl qsend qdec with
    | ok resp =>
      cases h2 : qidec resp.input with
      | ok inp =>
        cases hs : resp.started <;> cases hf : resp.finished <;>
          simp [SnarkifyProver.query_task, h, h2, hs, hf]
      | error e =>
        simp [SnarkifyProver.query_task, h, h2,
          SnarkifyProver.build_query_task_error_response]
    | error e =>
      simp [SnarkifyProver.query_task, h,
        SnarkifyProver.build_query_task_error_response]

/-- C1: the three public operations are total over every outcome of the
remote exchange; on any failure (URL, transport, status, body decode, or the
nested input decode of query_task) the returned response has its error field
set and the safe-default status/shape (vk = "" for get_vk, status Failed for
prove, status Queued for query_task). -/
theorem C1_operations_total (self : SnarkifyProver) (greq : GetVkRequest)
    (preq : ProveRequest) (qreq : QueryTaskRequest)
    (gurl purl qurl q2url : Except String Unit) (enc : Except String String)
    (gsend psend qsend q2send : NetOutcome)
    (gdec : String → Except String SnarkifyGetVkResponse)
    (pdec qdec q2dec : String → Except String SnarkifyGetTaskResponse)
    (qidec : String → Except String SnarkifyCreateTaskInput)
    (e1 e2 e3 e4 : String) (resp : SnarkifyGetTaskResponse)
    (hg : get_with_token (get_vk_method greq) gurl gsend gdec = Except.error e1)
    (hp : post_with_token (prove_method self) purl enc psend pdec = Except.error e2)
    (hq : get_with_token (query_task_method qreq) qurl qsend qdec = Except.error e3)
    (hq2 : get_with_token (query_task_method qreq) q2url q2send q2dec = Except.ok resp)
    (hi : qidec resp.input = Except.error e4) :
    ((self.get_vk greq gurl gsend gdec).vk = ""
      ∧ (self.get_vk greq gurl gsend gdec).error.isSome)
    ∧ ((self.prove preq purl enc psend pdec).status = TaskStatus.Failed
      ∧ (self.prove preq purl enc psend pdec).error.isSome)
    ∧ ((self.query_task qreq qurl qsend qdec qidec).status = TaskStatus.Queued
      ∧ (self.query_task qreq qurl qsend qdec qidec).error.isSome)
    ∧ ((self.query_task qreq q2url q2send q2dec qidec).status = TaskStatus.Queued
      ∧ (self.query_task qreq q2url q2send q2dec qidec).error.isSome) := by
  refine ⟨⟨?_, ?_⟩, ⟨?_, ?_⟩, ⟨?_, ?_⟩, ⟨?_, ?_⟩⟩ <;>
    simp [SnarkifyProver.get_vk, SnarkifyProver.prove, SnarkifyProver.query_task,
      hg, hp, hq, hq2, hi,
      SnarkifyProver.build_prove_error_response,
      SnarkifyProver.build_query_task_error_response]

/-- Witness for C1 at concrete inputs: a transport failure for each
operation, and a successful exchange whose embedded input does not decode. -/
theorem C1_operations_total_witness :
    ((sampleProver.get_vk sampleVkReq (Except.ok ())
        (NetOutcome.err "net down") failVkDecode).vk = ""
      ∧ (sampleProver.get_vk sampleVkReq (Except.ok ())
        (NetOutcome.err "net down") failVkDecode).error.isSome)
    ∧ ((sampleProver.prove sampleProveReq (Except.ok ()) (Except.ok "body")
        (NetOutcome.err "net down") failTaskDecode).status = TaskStatus.Failed
      ∧ (sampleProver.prove sampleProveReq (Except.ok ()) (Except.ok "body")
        (NetOutcome.err "net down") failTaskDecode).error.isSome)
    ∧ ((sampleProver.query_task sampleQueryReq (Except.ok ())
        (NetOutcome.err "net down") failTaskDecode sampleInputDecode).status = TaskStatus.Queued
      ∧ (sampleProver.query_task sampleQueryReq (Except.ok ())
        (NetOutcome.err "net down") failTaskDecode sampleInputDecode).error.isSome)
    ∧ ((sampleProver.query_task sampleQueryReq (Except.ok ())
        (NetOutcome.ok 200 "body") okTaskDecode sampleInputDecode).status = TaskStatus.Queued
      ∧ (sampleProver.query_task sampleQueryReq (Except.ok ())
        (NetOutcome.ok 200 "body") okTaskDecode sampleInputDecode).error.isSome) :=
  C1_operations_total sampleProver sampleVkReq sampleProveReq sampleQueryReq
    (Except.ok ()) (Except.ok ()) (Except.ok ()) (Except.ok ()) (Except.ok "body")
    (NetOutcome.err "net down") (NetOutcome.err "net down")
    (NetOutcome.err "net down") (NetOutcome.ok 200 "body")
    failVkDecode failTaskDecode failTaskDecode okTaskDecode sampleInputDecode
    "net down" "net down" "net down" "expected value" sampleTaskResp
    rfl rfl rfl rfl rfl

/-- C3: every failing query_task call — transport/status/body-decode failure
or embedded-input decode failure — returns the canonical query-failure
response: the originally requested task_id echoed, circuit_type Undefined,
empty circuit_version and hard_fork_name, status Queued, all timestamps and
result fields unset, error set. -/
theorem C3_query_failure_canonical (self : SnarkifyProver)
    (qreq : QueryTaskRequest) (url1 url2 : Except String Unit)
    (send1 send2 : NetOutcome)
    (dec1 dec2 : String → Except String SnarkifyGetTaskResponse)
    (idec : String → Except String SnarkifyCreateTaskInput)
    (e1 e2 : String) (resp : SnarkifyGetTaskResponse)
    (h1 : get_with_token (query_task_method qreq) url1 send1 dec1 = Except.error e1)
    (h2 : get_with_token (query_task_method qreq) url2 send2 dec2 = Except.ok resp)
    (h3 : idec resp.input = Except.error e2) :
    self.query_task qreq url1 send1 dec1 idec =
      { task_id := qreq.task_id, circuit_type := CircuitType.Undefined,
        circuit_version := "", hard_fork_name := "",
        status := TaskStatus.Queued, created_at := 0,
        started_at := none, finished_at := none, compute_time_sec := none,
        input := none, proof := none, vk := none,
        error := some ("Failed to query proof: " ++ e1) }
    ∧ self.query_task qreq url2 send2 dec2 idec =
      { task_id := qreq.task_id, circuit_type := CircuitType.Undefined,
        circuit_version := "", hard_fork_name := "",
        status := TaskStatus.Queued, created_at := 0,
        started_at := none, finished_at := none, compute_time_sec := none,
        input := none, proof := none, vk := none,
        error := some ("Failed to parse task input: " ++ e2) } := by
  constructor
  · simp [SnarkifyProver.query_task, h1,
      SnarkifyProver.build_query_task_error_response]
  · simp [SnarkifyProver.query_task, h2, h3,
      SnarkifyProver.build_query_task_error_response]

/-- Witness for C3: a concrete transport failure and a concrete
embedded-input decode failure, both yielding the canonical response. -/
theorem C3_query_failure_canonical_witness :
    sampleProver.query_task sampleQueryReq (Except.ok ())
      (NetOutcome.err "net down") failTaskDecode sampleInputDecode =
      { task_id := "abc123", circuit_type := CircuitType.Undefined,
        circuit_version := "", hard_fork_name := "",
        status := TaskStatus.Queued, created_at := 0,
        started_at := none, finished_at := none, compute_time_sec := none,
        input := none, proof := none, vk := none,
        error := some ("Failed to query proof: " ++ "net down") }
    ∧ sampleProver.query_task sampleQueryReq (Except.ok ())
      (NetOutcome.ok 200 "body") okTaskDecode sampleInputDecode =
      { task_id := "abc123", circuit_type := CircuitType.Undefined,
        circuit_version := "", hard_fork_name := "",
        status := TaskStatus.Queued, created_at := 0,
        started_at := none, finished_at := none, compute_time_sec := none,
        input := none, proof := none, vk := none,
        error := some ("Failed to parse task input: " ++ "expected value") } :=
  C3_query_failure_canonical sampleProver sampleQueryReq
    (Except.ok ()) (Except.ok ()) (NetOutcome.err "net down")
    (NetOutcome.ok 200 "body") failTaskDecode okTaskDecode sampleInputDecode
    "net down" "expected value" sampleTaskResp
    rfl rfl rfl

/-- C4: every failing prove call returns the canonical failure response —
empty task_id, status Failed, all timestamps and result fields unset except
the echoed input and the error message — and every prove call, successful or
not, echoes the caller's original input payload. -/
theorem C4_prove_failure_and_echo (self : SnarkifyProver) (req : ProveRequest)
    (url : Except String Unit) (enc : Except String String) (send : NetOutcome)
    (dec : String → Except String SnarkifyGetTaskResponse) :
    (∀ e, post_with_token (prove_method self) url enc send dec = Except.error e →
      self.prove req url enc send dec =
        { task_id := "", circuit_type := req.circuit_type,
          circuit_version := req.circuit_version,
          hard_fork_name := req.hard_fork_name,
          status := TaskStatus.Failed, created_at := 0,
          started_at := none, finished_at := none, compute_time_sec := none,
          input := some req.input, proof := none, vk := none,
          error := some ("Failed to request proof: " ++ e) })
    ∧ (self.prove req url enc send dec).input = some req.input := by
  constructor
  · intro e he
    simp [SnarkifyProver.prove, he, SnarkifyProver.build_prove_error_response]
  · cases h : post_with_token (prove_method self) url enc send dec with
    | ok resp => simp [SnarkifyProver.prove, h]
    | error e =>
      simp [SnarkifyProver.prove, h, SnarkifyProver.build_prove_error_response]

/-- C5: get_vk returns the decoded vk verbatim with no error on a
successful exchange, and on any failure returns vk = "" together with a
non-empty error message. -/
theorem C5_get_vk_paths (self : SnarkifyProver) (greq : GetVkRequest)
    (url1 url2 : Except String Unit) (send1 send2 : NetOutcome)
    (dec1 dec2 : String → Except String SnarkifyGetVkResponse)
    (resp : SnarkifyGetVkResponse) (e : String)
    (h1 : get_with_token (get_vk_method greq) url1 send1 dec1 = Except.ok resp)
    (h2 : get_with_token (get_vk_method greq) url2 send2 dec2 = Except.error e) :
    self.get_vk greq url1 send1 dec1 = { vk := resp.vk, error := none }
    ∧ (self.get_vk greq url2 send2 dec2).vk = ""
    ∧ ∃ m, (self.get_vk greq url2 send2 dec2).error = some m ∧ m ≠ "" := by
  refine ⟨?_, ?_, ?_⟩
  · simp [SnarkifyProver.get_vk, h1]
  · simp [SnarkifyProver.get_vk, h2]
  · refine ⟨"Failed to get vk: " ++ e, ?_, ?_⟩
    · simp [SnarkifyProver.get_vk, h2]
    · intro hc
      have h3 := congrArg String.length hc
      simp [String.length_append] at h3
      exact absurd h3.1 (by decide)

/-- Witness for C5: a successful decode returning a concrete vk, and a
transport failure returning the empty vk with a non-empty message. -/
theorem C5_get_vk_paths_witness :
    sampleProver.get_vk sampleVkReq (Except.ok ()) (NetOutcome.ok 200 "body")
      okVkDecode = { vk := "vkbytes", error := none }
    ∧ (sampleProver.get_vk sampleVkReq (Except.ok ())
        (NetOutcome.err "net down") failVkDecode).vk = ""
    ∧ ∃ m, (sampleProver.get_vk sampleVkReq (Except.ok ())
        (NetOutcome.err "net down") failVkDecode).error = some m ∧ m ≠ "" :=
  C5_get_vk_paths sampleProver sampleVkReq (Except.ok ()) (Except.ok ())
    (NetOutcome.ok 200 "body") (NetOutcome.err "net down")
    okVkDecode failVkDecode { vk := "vkbytes" } "net down" rfl rfl

/-- C6: on a successful remote exchange, prove returns the remote task id,
status mapped from the remote state, created_at/started_at from the remote
timestamps where present, finished_at/compute_time_sec/proof/vk unset, the
caller's input echoed, and no error. -/
theorem C6_prove_success (self : SnarkifyProver) (req : ProveRequest)
    (url : Except String Unit) (enc : Except String String) (send : NetOutcome)
    (dec : String → Except String SnarkifyGetTaskResponse)
    (resp : SnarkifyGetTaskResponse)
    (h : post_with_token (prove_method self) url enc send dec = Except.ok resp) :
    self.prove req url enc send dec =
      { task_id := resp.task_id, circuit_type := req.circuit_type,
        circuit_version := req.circuit_version,
        hard_fork_name := req.hard_fork_name,
        status := resp.state.into,
        created_at := (resp.created.map (fun t => t.timestampF)).getD 0,
        started_at := resp.started.map (fun t => t.timestampF),
        finished_at := none, compute_time_sec := none,
        input := some req.input, proof := none, vk := none,
        error := none } := by
  simp [SnarkifyProver.prove, h]

/-- Witness for C6 at a concrete successful exchange whose remote response
carries no timestamps. -/
theorem C6_prove_success_witness :
    sampleProver.prove sampleProveReq (Except.ok ()) (Except.ok "body")
      (NetOutcome.ok 201 "body") okTaskDecode =
      { task_id := "abc123", circuit_type := CircuitType.Halo2,
        circuit_version := "v1.2", hard_fork_name := "bernoulli",
        status := TaskStatus.Queued, created_at := 0,
        started_at := none, finished_at := none, compute_time_sec := none,
        input := some "0xdead", proof := none, vk := none,
        error := none } :=
  C6_prove_success sampleProver sampleProveReq (Except.ok ()) (Except.ok "body")
    (NetOutcome.ok 201 "body") okTaskDecode sampleTaskResp rfl

/-- C8: when the remote omits the creation timestamp, prove and query_task
return the sentinel created_at = 0; when it is supplied, created_at is taken
from it. -/
theorem C8_created_at_sentinel (self : SnarkifyProver) (preq : ProveRequest)
    (purl : Except String Unit) (enc : Except String String) (psend : NetOutcome)
    (pdec : String → Except String SnarkifyGetTaskResponse)
    (qreq : QueryTaskRequest) (qurl : Except String Unit) (qsend : NetOutcome)
    (qdec : String → Except String SnarkifyGetTaskResponse)
    (qidec : String → Except String SnarkifyCreateTaskInput)
    (resp1 resp2 : SnarkifyGetTaskResponse) (inp : SnarkifyCreateTaskInput)
    (hp : post_with_token (prove_method self) purl enc psend pdec = Except.ok resp1)
    (hq : get_with_token (query_task_method qreq) qurl qsend qdec = Except.ok resp2)
    (hi : qidec resp2.input = Except.ok inp) :
    ((resp1.created = none →
        (self.prove preq purl enc psend pdec).created_at = 0)
      ∧ (∀ t, resp1.created = some t →
        (self.prove preq purl enc psend pdec).created_at = (t.timestamp : Rat)))
    ∧ ((resp2.created = none →
        (self.query_task qreq qurl qsend qdec qidec).created_at = 0)
      ∧ (∀ t, resp2.created = some t →
        (self.query_task qreq qurl qsend qdec qidec).created_at = (t.timestamp : Rat))) := by
  refine ⟨⟨?_, ?_⟩, ⟨?_, ?_⟩⟩
  · intro hc
    simp [SnarkifyProver.prove, hp, hc]
  · intro t hc
    simp [SnarkifyProver.prove, hp, hc, DateTime.timestampF]
  · intro hc
    simp [SnarkifyProver.query_task, hq, hi, hc]
  · intro t hc
    simp [SnarkifyProver.query_task, hq, hi, hc, DateTime.timestampF]

/-- Witness for C8: a prove exchange whose remote response has no creation
timestamp (sentinel 0) and a query_task exchange whose remote response
carries creation time 100s (taken verbatim). -/
theorem C8_created_at_sentinel_witness :
    (sampleProver.prove sampleProveReq (Except.ok ()) (Except.ok "body")
      (NetOutcome.ok 200 "body") okTaskDecode).created_at = 0
    ∧ (sampleProver.query_task sampleQueryReq (Except.ok ())
      (NetOutcome.ok 200 "body") okDoneDecode sampleInputDecode).created_at =
      ((⟨100, 250000000⟩ : DateTime).timestamp : Rat) :=
  ⟨(C8_created_at_sentinel sampleProver sampleProveReq (Except.ok ())
      (Except.ok "body") (NetOutcome.ok 200 "body") okTaskDecode
      sampleQueryReq (Except.ok ()) (NetOutcome.ok 200 "body") okDoneDecode
      sampleInputDecode sampleTaskResp sampleDoneResp sampleTaskInput
      rfl rfl rfl).1.1 rfl,
   (C8_created_at_sentinel sampleProver sampleProveReq (Except.ok ())
      (Except.ok "body") (NetOutcome.ok 200 "body") okTaskDecode
      sampleQueryReq (Except.ok ()) (NetOutcome.ok 200 "body") okDoneDecode
      sampleInputDecode sampleTaskResp sampleDoneResp sampleTaskInput
      rfl rfl rfl).2.2 ⟨100, 250000000⟩ rfl⟩

/-- C9: on a fully successful query_task call the returned vk is always
none, and the remote response's proof and error fields are passed through
verbatim — so a response can carry a proof and an error at once. -/
theorem C9_query_success_passthrough (self : SnarkifyProver)
    (qreq : QueryTaskRequest) (url : Except String Unit) (send : NetOutcome)
    (dec : String → Except String SnarkifyGetTaskResponse)
    (idec : String → Except String SnarkifyCreateTaskInput)
    (resp : SnarkifyGetTaskResponse) (inp : SnarkifyCreateTaskInput)
    (h1 : get_with_token (query_task_method qreq) url send dec = Except.ok resp)
    (h2 : idec resp.input = Except.ok inp) :
    (self.query_task qreq url send dec idec).vk = none
    ∧ (self.query_task qreq url send dec idec).error = resp.error
    ∧ (self.query_task qreq url send dec idec).proof = resp.proof := by
  refine ⟨?_, ?_, ?_⟩ <;> simp [SnarkifyProver.query_task, h1, h2]

/-- Witness for C9: a successful poll of a finished task that carries both
a proof and a remote error message, both passed through, with vk none. -/
theorem C9_query_success_passthrough_witness :
    (sampleProver.query_task sampleQueryReq (Except.ok ())
      (NetOutcome.ok 200 "body") okDoneDecode sampleInputDecode).vk = none
    ∧ (sampleProver.query_task sampleQueryReq (Except.ok ())
      (NetOutcome.ok 200 "body") okDoneDecode sampleInputDecode).error =
      some "remote warning"
    ∧ (sampleProver.query_task sampleQueryReq (Except.ok ())
      (NetOutcome.ok 200 "body") okDoneDecode sampleInputDecode).proof =
      some "proofbytes" :=
  C9_query_success_passthrough sampleProver sampleQueryReq (Except.ok ())
    (NetOutcome.ok 200 "body") okDoneDecode sampleInputDecode
    sampleDoneResp sampleTaskInput rfl rfl

/-- Holds when an optional adapter time value is a whole number of seconds. -/
def optWholeSeconds : Option Rat → Bool
  | none => true
  | some q => q.den == 1

/-- A difference of converted timestamps is a whole number of seconds. -/
theorem sub_timestampF_den (s f : DateTime) :
    (f.timestampF - s.timestampF).den = 1 := by
  show (((f.secs : Int) : Rat) - ((s.secs : Int) : Rat)).den = 1
  rw [← Int.cast_sub]
  exact Rat.den_intCast _

/-- Every time field of every prove response is a whole number of seconds. -/
theorem prove_time_fields_den (self : SnarkifyProver) (preq : ProveRequest)
    (purl : Except String Unit) (enc : Except String String) (psend : NetOutcome)
    (pdec : String → Except String SnarkifyGetTaskResponse) :
    (self.prove preq purl enc psend pdec).created_at.den = 1
    ∧ optWholeSeconds (self.prove preq purl enc psend pdec).started_at = true
    ∧ optWholeSeconds (self.prove preq purl enc psend pdec).finished_at = true
    ∧ optWholeSeconds (self.prove preq purl enc psend pdec).compute_time_sec = true := by
  cases hp : post_with_token (prove_method self) purl enc psend pdec with
  | ok resp =>
    refine ⟨?_, ?_, ?_, ?_⟩
    · cases hc : resp.created with
      | none => simp [SnarkifyProver.prove, hp, hc]
      | some t =>
        simp [SnarkifyProver.prove, hp, hc, DateTime.timestampF, DateTime.timestamp]
    · cases hs : resp.started with
      | none => simp [SnarkifyProver.prove, hp, hs, optWholeSeconds]
      | some t =>
        simp [SnarkifyProver.prove, hp, hs, optWholeSeconds,
          DateTime.timestampF, DateTime.timestamp]
    · simp [SnarkifyProver.prove, hp, optWholeSeconds]
    · simp [SnarkifyProver.prove, hp, optWholeSeconds]
  | error e =>
    refine ⟨?_, ?_, ?_, ?_⟩ <;>
      simp [SnarkifyProver.prove, hp,
        SnarkifyProver.build_prove_error_response, optWholeSeconds]

/-- Every time field of every query_task response is a whole number of
seconds. -/
theorem query_time_fields_den (self : SnarkifyProver) (qreq : QueryTaskRequest)
    (qurl : Except String Unit) (qsend : NetOutcome)
    (qdec : String → Except String SnarkifyGetTaskResponse)
    (qidec : String → Except String SnarkifyCreateTaskInput) :
    (self.query_task qreq qurl qsend qdec qidec).created_at.den = 1
    ∧ optWholeSeconds (self.query_task qreq qurl qsend qdec qidec).started_at = true
    ∧ optWholeSeconds (self.query_task qreq qurl qsend qdec qidec).finished_at = true
    ∧ optWholeSeconds (self.query_task qreq qurl qsend qdec qidec).compute_time_sec = true := by
  cases hq : get_with_token (query_task_method qreq) qurl qsend qdec with
  | ok resp =>
    cases hi : qidec resp.input with
    | ok inp =>
      refine ⟨?_, ?_, ?_, ?_⟩
      · cases hc : resp.created with
        | none => simp [SnarkifyProver.query_task, hq, hi, hc]
        | some t =>
          simp [SnarkifyProver.query_task, hq, hi, hc,
            DateTime.timestampF, DateTime.timestamp]
      · cases hs : resp.started with
        | none => simp [SnarkifyProver.query_task, hq, hi, hs, optWholeSeconds]
        | some t =>
          simp [SnarkifyProver.query_task, hq, hi, hs, optWholeSeconds,
            DateTime.timestampF, DateTime.timestamp]
      · cases hf : resp.finished with
        | none => simp [SnarkifyProver.query_task, hq, hi, hf, optWholeSeconds]
        | some t =>
          simp [SnarkifyProver.query_task, hq, hi, hf, optWholeSeconds,
            DateTime.timestampF, DateTime.timestamp]
      · cases hs : resp.started with
        | none => simp [SnarkifyProver.query_task, hq, hi, hs, optWholeSeconds]
        | some s =>
          cases hf : resp.finished with
          | none =>
            simp [SnarkifyProver.query_task, hq, hi, hs, hf, optWholeSeconds]
          | some f =>
            simp [SnarkifyProver.query_task, hq, hi, hs, hf, optWholeSeconds,
              sub_timestampF_den]
    | error e =>
      refine ⟨?_, ?_, ?_, ?_⟩ <;>
        simp [SnarkifyProver.query_task, hq, hi,
          SnarkifyProver.build_query_task_error_response, optWholeSeconds]
  | error e =>
    refine ⟨?_, ?_, ?_, ?_⟩ <;>
      simp [SnarkifyProver.query_task, hq,
        SnarkifyProver.build_query_task_error_response, optWholeSeconds]

/-- C10: every time value the adapter returns is a whole number of seconds:
the remote timestamp conversion truncates to integer seconds (discarding the
sub-second part), so created_at, started_at, finished_at and
compute_time_sec are always integer-valued, for every outcome of prove and
query_task. -/
theorem C10_whole_seconds (self : SnarkifyProver) (preq : ProveRequest)
    (purl : Except String Unit) (enc : Except String String) (psend : NetOutcome)
    (pdec : String → Except String SnarkifyGetTaskResponse)
    (qreq : QueryTaskRequest) (qurl : Except String Unit) (qsend : NetOutcome)
    (qdec : String → Except String SnarkifyGetTaskResponse)
    (qidec : String → Except String SnarkifyCreateTaskInput) :
    (∀ t : DateTime, t.timestampF = (t.secs : Rat))
    ∧ (self.prove preq purl enc psend pdec).created_at.den = 1
    ∧ optWholeSeconds (self.prove preq purl enc psend pdec).started_at = true
    ∧ optWholeSeconds (self.prove preq purl enc psend pdec).finished_at = true
    ∧ optWholeSeconds (self.prove preq purl enc psend pdec).compute_time_sec = true
    ∧ (self.query_task qreq qurl qsend qdec qidec).created_at.den = 1
    ∧ optWholeSeconds (self.query_task qreq qurl qsend qdec qidec).started_at = true
    ∧ optWholeSeconds (self.query_task qreq qurl qsend qdec qidec).finished_at = true
    ∧ optWholeSeconds (self.query_task qreq qurl qsend qdec qidec).compute_time_sec = true := by
  obtain ⟨p1, p2, p3, p4⟩ := prove_time_fields_den self preq purl enc psend pdec
  obtain ⟨q1, q2, q3, q4⟩ := query_time_fields_den self qreq qurl qsend qdec qidec
  exact ⟨fun t => rfl, p1, p2, p3, p4, q1, q2, q3, q4⟩
